import Mathlib

/-!
Verification of the report harvesting and ingestion pipeline
(`src/SQL/parsing/`): a shallow embedding of `parser_stdlib.py`,
`constants.py`, `import_to_db.py` and `main.py`, followed by theorems about
the claims of the specification.

Modelling conventions:
* Python strings are Lean `String`s; spreadsheet cells are strings (the
  documents consumed by the parser are text grids).
* Python `float` values produced by `float(cell)` are modelled as exact
  rationals (`ℚ`); the decimal grammar of `float()` is embedded (the
  special forms `inf`/`nan` and digit-group underscores never occur in the
  documents and are outside the model).
* Fallible Python code returns `Except PyErr`; Python exception classes are
  embedded as `PyErr` constructors carrying their structured payloads
  (messages that would contain quoted reprs carry the quoted value itself).
* Effects (network, filesystem, database) are passed explicitly: `urlopen`
  and `urlretrieve` outcomes, directory contents and database outcomes are
  parameters, and stateful steps thread a state record.
-/

namespace Em

/-- Transport-level exception raised by `urllib` machinery, as classified by
CPython's exception hierarchy: `ConnectionResetError` (and its subclass
`http.client.RemoteDisconnected`) are subclasses of `ConnectionError`,
while `urllib.error.URLError` and its subclass `HTTPError` derive from
`OSError` but are NOT subclasses of `ConnectionError`. -/
inductive TransportExc where
  | connectionReset (msg : String)
  | urlError (msg : String)
  | httpError (code : Nat)
  deriving DecidableEq, Repr

/-- Whether `except ConnectionError` catches this exception (CPython class
hierarchy: only the `ConnectionError` family qualifies). -/
def TransportExc.isConnectionClass : TransportExc → Bool
  | .connectionReset _ => true
  | .urlError _ => false
  | .httpError _ => false

/-- Payload of a Python `ValueError` as raised by the parsing code:
`float()` conversion failure (carrying the offending string),
`strptime` format mismatch (carrying the offending string), or
date-component range failure. -/
inductive VEInfo where
  | floatConv (s : String)
  | timeData (s : String)
  | dayOutOfRange
  deriving DecidableEq, Repr

/-- Python exceptions that the embedded code can raise.  `parserError`
embeds `ParserError(item, error)` from `parser_stdlib.py`: the first field
is `str(item)` (what the f-string interpolates), the second the wrapped
exception.  `invalidData` embeds `InvalidDataException(expected, actual)`
carrying the two type names. -/
inductive PyErr where
  | valueError (info : VEInfo)
  | indexError
  | typeError (msg : String)
  | invalidData (expected actual : String)
  | parserError (item : String) (cause : PyErr)
  | connectionError
  | transport (e : TransportExc)
  | xlrdError (msg : String)
  | dbError (msg : String)
  deriving DecidableEq, Repr

/-- Python values, as far as the type checks of the `Parser` class need to
distinguish them (`_check_incoming_data_type` uses `isinstance`). -/
inductive PyVal where
  | str (s : String)
  | list (xs : List PyVal)
  | tuple (xs : List PyVal)
  | gen
  | int (n : Int)
  | path (p : String)
  | pynone

/-- Python type name of a value, as `type(x)` would report it. -/
def PyVal.typeName : PyVal → String
  | .str _ => "str"
  | .list _ => "list"
  | .tuple _ => "tuple"
  | .gen => "generator"
  | .int _ => "int"
  | .path _ => "PosixPath"
  | .pynone => "NoneType"

/-- Whether a value is a built-in `list` (the `isinstance(data, list)` test). -/
def PyVal.isList : PyVal → Bool
  | .list _ => true
  | _ => false

deriving instance DecidableEq for Except

/-! ## Python string and list primitives -/

/-- Characters stripped by Python `str.strip()` with no argument
(ASCII whitespace as found in the header cells). -/
def isPySpace (c : Char) : Bool :=
  c = ' ' || c = '\t' || c = '\n' || c = '\r' || c = '\x0b' || c = '\x0c'

/-- Python `str.strip()`. -/
def pyStrip (s : String) : String :=
  String.mk (((s.toList.dropWhile isPySpace).reverse.dropWhile isPySpace).reverse)

/-- Helper of `pySplit`: split a character list at every separator. -/
def splitAux (sep : Char) : List Char → List Char → List (List Char)
  | [], cur => [cur.reverse]
  | c :: rest, cur =>
      if c = sep then cur.reverse :: splitAux sep rest []
      else splitAux sep rest (c :: cur)

/-- Python `str.split(sep)` for a one-character separator: always returns at
least one piece, empty pieces preserved. -/
def pySplit (sep : Char) (s : String) : List String :=
  (splitAux sep s.toList []).map String.mk

/-- Python `str.splitlines()` restricted to `\n`-terminated text: splits on
newlines and drops the final empty piece produced by a trailing newline. -/
def splitlines (s : String) : List String :=
  if s = "" then []
  else
    let parts := pySplit '\n' s
    if s.toList.getLastD ' ' = '\n' then parts.dropLast else parts

/-- Python sequence indexing `xs[i]` with negative-index support: raises
`IndexError` when out of range. -/
def pyIdx {α : Type} (l : List α) (i : Int) : Except PyErr α :=
  let j : Int := if i < 0 then i + l.length else i
  if j < 0 then .error .indexError
  else
    match l.get? j.toNat with
    | some a => .ok a
    | none => .error .indexError

/-- Clamp one endpoint of a Python slice to `[0, len]`
(negative endpoints count from the end). -/
def pyBound (len : Nat) (i : Int) : Nat :=
  if i < 0 then (i + len).toNat else min i.toNat len

/-- Python slicing `l[start:stop]` with step 1; `none` endpoints are open.
Total: never raises, clamps out-of-range endpoints. -/
def pySliceList {α : Type} (start stop : Option Int) (l : List α) : List α :=
  let a := match start with
    | none => 0
    | some i => pyBound l.length i
  let b := match stop with
    | none => l.length
    | some i => pyBound l.length i
  (l.take b).drop a

/-- Python string slicing `s[start:stop]`. -/
def pySliceStr (start stop : Option Int) (s : String) : String :=
  String.mk (pySliceList start stop s.toList)

/-- Substring test helper for Python `needle in line`. -/
def strContainsAux (needle : List Char) : List Char → Bool
  | [] => needle.isEmpty
  | c :: rest => needle.isPrefixOf (c :: rest) || strContainsAux needle rest

/-- Python substring containment `needle in hay` for strings. -/
def strContains (needle hay : String) : Bool :=
  strContainsAux needle.toList hay.toList

/-! ## `constants.py` -/

/-- `constants.py`: sentinel cell values whose presence in the last or the
second column makes the parser skip the row. -/
def ROWS_TO_SKIP : List String :=
  ["", "-", "Количество\nДоговоров,\nшт.", "Итого", "Итого по секции:"]

/-- `constants.py`: index of the contract-count column (last column). -/
def CONTRACT_VALUE_IDX : Int := -1

/-- `constants.py`: column of the exchange product code. -/
def EXCHANGE_PRODUCT_ID_COL : Int := 1

/-- `constants.py`: column of the exchange product name. -/
def EXCHANGE_PRODUCT_NAME_COL : Int := 2

/-- `constants.py`: `OIL_ID_SLICE = slice(None, 4)`. -/
def OIL_ID_SLICE : Option Int × Option Int := (none, some 4)

/-- `constants.py`: `DELIVERY_BASIS_ID_SLICE = slice(4, 7)`. -/
def DELIVERY_BASIS_ID_SLICE : Option Int × Option Int := (some 4, some 7)

/-- `constants.py`: column of the delivery basis name. -/
def DELIVERY_BASIS_NAME_COL : Int := 3

/-- `constants.py`: `DELIVERY_TYPE_ID_SLICE = slice(-1, None)`. -/
def DELIVERY_TYPE_ID_SLICE : Option Int × Option Int := (some (-1), none)

/-- `constants.py`: column of the traded volume. -/
def VOLUME_COL : Int := 4

/-- `constants.py`: column of the trade total. -/
def TOTAL_COL : Int := 5

/-- `constants.py`: column of the contract count (`= CONTRACT_VALUE_IDX`). -/
def COUNT_COL : Int := CONTRACT_VALUE_IDX

/-- `constants.py`: `REPORTS_RANGE = range(45, 0, -1)`, i.e. 45 down to 1. -/
def REPORTS_RANGE : List Nat := (List.range 45).map (fun i => 45 - i)

/-- Site origin the orchestrator instantiates the parser with (`main.py`). -/
def SITE : String := "https://spimex.com"

/-! ## `float()` and `strptime` -/

/-- Digits of a numeral to a natural number. -/
def digitsToNat (l : List Char) : Nat :=
  l.foldl (fun a c => a * 10 + (c.toNat - 48)) 0

/-- Exact rational value of a Python `float` produced from a decimal cell:
canonical reduced fraction (positive denominator, sign on the numerator).
The decimal strings of the documents denote exact rationals, so rational
arithmetic models the conversion faithfully at every value the claims
touch. -/
structure PyRat where
  num : Int
  den : Nat
  deriving DecidableEq, Repr

/-- Reduce a fraction to the canonical form (the denominator is positive
whenever the input denominator is). -/
def PyRat.normalize (n : Int) (d : Nat) : PyRat :=
  let g := Nat.gcd n.natAbs d
  if g = 0 then ⟨0, 1⟩ else ⟨n / g, d / g⟩

/-- Negation (canonical form is preserved). -/
def PyRat.neg (q : PyRat) : PyRat := ⟨-q.num, q.den⟩

/-- Mantissa scaled by a decimal exponent, as a canonical fraction. -/
def PyRat.scaled (num den : Nat) (e : Int) : PyRat :=
  if 0 ≤ e then PyRat.normalize (num * 10 ^ e.toNat) den
  else PyRat.normalize num (den * 10 ^ (-e).toNat)

/-- Exponent part of the `float()` grammar: optional sign then digits. -/
def pyFloatExp (l : List Char) : Option Int :=
  let signed : Int × List Char :=
    match l with
    | '+' :: rest => (1, rest)
    | '-' :: rest => (-1, rest)
    | _ => (1, l)
  let digits := signed.2.takeWhile Char.isDigit
  if digits.isEmpty || !(signed.2.dropWhile Char.isDigit).isEmpty then none
  else some (signed.1 * (digitsToNat digits : Int))

/-- Grammar core of Python `float(s)` on an already-stripped, already
sign-split body: `digits [. digits]` or `. digits`, with an optional
decimal exponent. -/
def pyFloatBody (l : List Char) : Option PyRat :=
  let intDigits := l.takeWhile Char.isDigit
  let rest1 := l.dropWhile Char.isDigit
  match rest1 with
  | '.' :: rest2 =>
      let fracDigits := rest2.takeWhile Char.isDigit
      let rest3 := rest2.dropWhile Char.isDigit
      if intDigits.isEmpty && fracDigits.isEmpty then none
      else
        let mantNum := digitsToNat intDigits * 10 ^ fracDigits.length + digitsToNat fracDigits
        let mantDen := 10 ^ fracDigits.length
        match rest3 with
        | [] => some (PyRat.scaled mantNum mantDen 0)
        | 'e' :: expPart => (pyFloatExp expPart).map (PyRat.scaled mantNum mantDen)
        | 'E' :: expPart => (pyFloatExp expPart).map (PyRat.scaled mantNum mantDen)
        | _ => none
  | [] =>
      if intDigits.isEmpty then none
      else some (PyRat.scaled (digitsToNat intDigits) 1 0)
  | 'e' :: expPart =>
      if intDigits.isEmpty then none
      else (pyFloatExp expPart).map (PyRat.scaled (digitsToNat intDigits) 1)
  | 'E' :: expPart =>
      if intDigits.isEmpty then none
      else (pyFloatExp expPart).map (PyRat.scaled (digitsToNat intDigits) 1)
  | _ => none

/-- Optional leading sign of the `float()` grammar (consumed once). -/
def pyFloatSigned (body : List Char) : Option PyRat :=
  match body with
  | '+' :: rest => pyFloatBody rest
  | '-' :: rest => (pyFloatBody rest).map PyRat.neg
  | _ => pyFloatBody body

/-- Python `float(s)` for string cells: strips whitespace, parses an
optionally signed decimal numeral; raises
`ValueError: could not convert string to float` (carrying the original
string) otherwise. -/
def pyFloat (s : String) : Except PyErr PyRat :=
  match pyFloatSigned (pyStrip s).toList with
  | some q => .ok q
  | none => .error (.valueError (.floatConv s))

/-- Calendar date as produced by `datetime.strptime(_, "%d.%m.%Y")`. -/
structure PyDate where
  day : Nat
  month : Nat
  year : Nat
  deriving DecidableEq, Repr

/-- Gregorian leap-year test (as `datetime` validates day-of-month). -/
def isLeapYear (y : Nat) : Bool :=
  y % 4 = 0 && (y % 100 ≠ 0 || y % 400 = 0)

/-- Days in a month, as `datetime` validates the day component. -/
def daysInMonth (m y : Nat) : Nat :=
  if m = 2 then (if isLeapYear y then 29 else 28)
  else if m = 4 || m = 6 || m = 9 || m = 11 then 30
  else 31

/-- All characters are ASCII digits and the list is nonempty. -/
def allDigits (l : List Char) : Bool :=
  !l.isEmpty && l.all Char.isDigit

/-- Python `datetime.strptime(s, "%d.%m.%Y")`: day and month of one or two
digits (range-checked by the format regex), a four-digit year, full
day-of-month validation by the `datetime` constructor; raises `ValueError`
otherwise. -/
def pyStrptimeDMY (s : String) : Except PyErr PyDate :=
  match pySplit '.' s with
  | [ds, ms, ys] =>
      let dl := ds.toList
      let ml := ms.toList
      let yl := ys.toList
      if allDigits dl && dl.length ≤ 2 && allDigits ml && ml.length ≤ 2
          && allDigits yl && yl.length = 4 then
        let d := digitsToNat dl
        let m := digitsToNat ml
        let y := digitsToNat yl
        if 1 ≤ d && d ≤ 31 && 1 ≤ m && m ≤ 12 && 1 ≤ y then
          if d ≤ daysInMonth m y then .ok ⟨d, m, y⟩
          else .error (.valueError .dayOutOfRange)
        else .error (.valueError (.timeData s))
      else .error (.valueError (.timeData s))
  | _ => .error (.valueError (.timeData s))


/-! ## The `Parser` class of `parser_stdlib.py` (HTML side) -/

/-- `Parser._check_incoming_data_type(data, list)`: raises
`InvalidDataException` unless the value is a built-in `list`. -/
def check_incoming_list (data : PyVal) : Except PyErr (List PyVal) :=
  match data with
  | .list xs => .ok xs
  | v => .error (.invalidData "list" v.typeName)

/-- `Parser._check_incoming_data_type(data, str)`. -/
def check_incoming_str (data : PyVal) : Except PyErr String :=
  match data with
  | .str s => .ok s
  | v => .error (.invalidData "str" v.typeName)

/-- Loop of the `parse_by_expression` list comprehension: keeps the lines
containing the expression; Python `in` on a non-string element raises
`TypeError` (argument not iterable). -/
def filter_loop (expression : String) : List PyVal → Except PyErr (List PyVal)
  | [] => .ok []
  | v :: rest =>
      match v with
      | .str line =>
          match filter_loop expression rest with
          | .error e => .error e
          | .ok more =>
              .ok (if strContains expression line then .str line :: more else more)
      | other => .error (.typeError ("argument of type " ++ other.typeName ++ " is not iterable"))

/-- `Parser.parse_by_expression`: after the list type check, keep the lines
that contain the expression. -/
def parse_by_expression (data : PyVal) (expression : String) : Except PyErr (List PyVal) :=
  match check_incoming_list data with
  | .error e => .error e
  | .ok items => filter_loop expression items

/-- The literal prefix of the default pattern `href="([^"]+)"`. -/
def HREF_LIT : List Char := "href=\"".toList

/-- Characters up to (excluding) the first double quote; `none` when no
closing quote exists. -/
def takeUntilQuote : List Char → Option (List Char)
  | [] => none
  | c :: rest =>
      if c = '"' then some []
      else (takeUntilQuote rest).map (fun l => c :: l)

/-- `re.search` of the default pattern `href="([^"]+)"`: leftmost match wins,
the capture group is the maximal nonempty run of non-quote characters after
`href="` that is closed by a quote. -/
def href_search : List Char → Option String
  | [] => none
  | c :: rest =>
      if HREF_LIT.isPrefixOf (c :: rest) then
        match takeUntilQuote (List.drop HREF_LIT.length (c :: rest)) with
        | some cap => if cap.isEmpty then href_search rest else some (String.mk cap)
        | none => href_search rest
      else href_search rest

/-- `Parser._construct_url`: strip the query string (`split("?")[0]`) and
optionally prepend the site origin. -/
def construct_url (site url : String) ( site_prefix : Bool) : String :=
  if site_prefix then site ++ (pySplit '?' url).headD ""
  else (pySplit '?' url).headD ""

/-- Loop of `get_urls_from_retrieved_data`: run the regex search on every
line, in source order; `re.search` on a non-string raises `TypeError`. -/
def url_loop (site : String) ( site_prefix : Bool) : List PyVal → Except PyErr (List String)
  | [] => .ok []
  | v :: rest =>
      match v with
      | .str line =>
          match url_loop site site_prefix rest with
          | .error e => .error e
          | .ok more =>
              match href_search line.toList with
              | some captured => .ok (construct_url site captured site_prefix :: more)
              | none => .ok more
      | _ => .error (.typeError "expected string or bytes-like object")

/-- `Parser.get_urls_from_retrieved_data`: after the list type check, collect
the first `href` capture of every line, query strings stripped, optionally
site-prefixed, duplicates preserved, source order preserved. -/
def get_urls_from_retrieved_data (site : String) (data : PyVal) ( site_prefix : Bool) :
    Except PyErr (List String) :=
  match check_incoming_list data with
  | .error e => .error e
  | .ok items => url_loop site site_prefix items

/-- Outcome of one `urlopen` call: either a response (status code and body)
or a raised transport exception. -/
inductive UrlopenOutcome where
  | response (code : Nat) (body : String)
  | raises (e : TransportExc)

/-- `Parser.fetch_data`: `urlopen` the URL; a response with a non-OK status
raises `ConnectionError`, which the `except ConnectionError` clause wraps
into `ParserError(url, exc)`; a raised transport exception is wrapped the
same way only when it is of the `ConnectionError` family, and propagates
unwrapped otherwise; on success the decoded body is split into lines. -/
def fetch_data (url : String) (o : UrlopenOutcome) : Except PyErr (List String) :=
  match o with
  | .response code body =>
      if code ≠ 200 then .error (.parserError url .connectionError)
      else .ok (splitlines body)
  | .raises e =>
      if e.isConnectionClass then .error (.parserError url (.transport e))
      else .error (.transport e)

/-- `Parser.fetch_and_parse_data`: fetch one listing page, filter its lines
by the document-path expression, then extract the document URLs. -/
def fetch_and_parse_data (site : String) (o : UrlopenOutcome) : Except PyErr (List String) :=
  match fetch_data site o with
  | .error e => .error e
  | .ok page =>
      match parse_by_expression (.list (page.map .str)) "/upload/reports/oil_xls/" with
      | .error e => .error e
      | .ok collected => get_urls_from_retrieved_data SITE (.list collected) true

/-! ## Sheet parsing (`get_instruments_from_sheet`, `parse_xls_files`) -/

/-- `models.py` dataclass `Instrument` (one parsed trade row).  `created_on`
is the `datetime.now()` timestamp passed in by the caller of the parse;
`id` keeps its transient default `0` until the store assigns it. -/
structure Instrument where
  exchange_product_id : String
  exchange_product_name : String
  oil_id : String
  delivery_basis_id : String
  delivery_basis_name : String
  delivery_type_id : String
  volume : PyRat
  total : PyRat
  count : PyRat
  date : PyDate
  created_on : Nat
  updated_on : Option Nat
  id : Nat
  deriving DecidableEq, Repr

/-- Skip test of the row loop in `get_instruments_from_sheet`:
`row_values(row)[CONTRACT_VALUE_IDX] in ROWS_TO_SKIP or
row_values(row)[1] in ROWS_TO_SKIP`, with Python's short-circuit `or`. -/
def skip_row (row : List String) : Except PyErr Bool :=
  match pyIdx row CONTRACT_VALUE_IDX with
  | .error e => .error e
  | .ok lastv =>
      if ROWS_TO_SKIP.contains lastv then .ok true
      else
        match pyIdx row 1 with
        | .error e => .error e
        | .ok second => .ok (ROWS_TO_SKIP.contains second)

/-- Construction of one `Instrument` from a non-skipped row: the cell reads
and `float()` conversions in the evaluation order of the constructor call
(`cell_value` re-reads of column 1 are deduplicated — the reads are pure). -/
def mk_instrument (now : Nat) (d : PyDate) (row : List String) : Except PyErr Instrument :=
  match pyIdx row EXCHANGE_PRODUCT_ID_COL with
  | .error e => .error e
  | .ok pid =>
    match pyIdx row EXCHANGE_PRODUCT_NAME_COL with
    | .error e => .error e
    | .ok pname =>
      match pyIdx row DELIVERY_BASIS_NAME_COL with
      | .error e => .error e
      | .ok basis_name =>
        match pyIdx row VOLUME_COL with
        | .error e => .error e
        | .ok volS =>
          match pyFloat volS with
          | .error e => .error e
          | .ok vol =>
            match pyIdx row TOTAL_COL with
            | .error e => .error e
            | .ok totS =>
              match pyFloat totS with
              | .error e => .error e
              | .ok tot =>
                match pyIdx row COUNT_COL with
                | .error e => .error e
                | .ok cntS =>
                  match pyFloat cntS with
                  | .error e => .error e
                  | .ok cnt =>
                    .ok { exchange_product_id := pid
                          exchange_product_name := pname
                          oil_id := pySliceStr OIL_ID_SLICE.1 OIL_ID_SLICE.2 pid
                          delivery_basis_id :=
                            pySliceStr DELIVERY_BASIS_ID_SLICE.1 DELIVERY_BASIS_ID_SLICE.2 pid
                          delivery_basis_name := basis_name
                          delivery_type_id :=
                            pySliceStr DELIVERY_TYPE_ID_SLICE.1 DELIVERY_TYPE_ID_SLICE.2 pid
                          volume := vol
                          total := tot
                          count := cnt
                          date := d
                          created_on := now
                          updated_on := none
                          id := 0 }

/-- Row loop of `get_instruments_from_sheet`: every row of the sheet is
either skipped or appended as exactly one `Instrument`, in sheet order; the
first raised exception aborts the whole parse. -/
def parse_rows (now : Nat) (d : PyDate) : List (List String) → Except PyErr (List Instrument)
  | [] => .ok []
  | row :: rest =>
      match skip_row row with
      | .error e => .error e
      | .ok true => parse_rows now d rest
      | .ok false =>
          match mk_instrument now d row with
          | .error e => .error e
          | .ok i =>
              match parse_rows now d rest with
              | .error e => .error e
              | .ok tl => .ok (i :: tl)

/-- Header-date extraction of `get_instruments_from_sheet`:
`sheet.row_values(3)[1].split(":")[1].strip()` parsed with `%d.%m.%Y`. -/
def date_of (sheet : List (List String)) : Except PyErr PyDate :=
  match pyIdx sheet 3 with
  | .error e => .error e
  | .ok row3 =>
      match pyIdx row3 1 with
      | .error e => .error e
      | .ok cell =>
          match pyIdx (pySplit ':' cell) 1 with
          | .error e => .error e
          | .ok datePart => pyStrptimeDMY (pyStrip datePart)

/-- `get_instruments_from_sheet`: parse the shared trade date from the fixed
header cell, then run the row loop over every row of the sheet. -/
def get_instruments_from_sheet (now : Nat) (sheet : List (List String)) :
    Except PyErr (List Instrument) :=
  match date_of sheet with
  | .error e => .error e
  | .ok d => parse_rows now d sheet

/-- One file in the transient storage directory as `get_sheet` sees it:
either its first sheet (a grid of cells), or an open failure
(`xlrd.compdoc.CompDocError` / `IndexError`, carried as its repr). -/
inductive Doc where
  | sheet (rows : List (List String))
  | openError (msg : String)

/-- `str(sheet)` as interpolated into the `ParserError` message:
`xlrd.sheet.Sheet` defines no `__str__`/`__repr__`, so CPython's default
object repr applies — class name and memory address only, carrying no
information about the sheet contents (the address, meaningless for the
specification, is not modelled). -/
def sheetRepr (rows : List (List String)) : String :=
  let _ := rows
  "<xlrd.sheet.Sheet object>"

/-- `parse_xls_files` over the glob result (the matched files of the
transient directory, in glob order): open failures and `ValueError`s are
wrapped into `ParserError` (naming `str(path)` resp. `str(sheet)`);
any other exception propagates unwrapped; the per-file record lists are
concatenated in file order. -/
def parse_xls_files (now : Nat) : List (String × Doc) → Except PyErr (List Instrument)
  | [] => .ok []
  | (name, doc) :: rest =>
      match doc with
      | .openError msg => .error (.parserError name (.xlrdError msg))
      | .sheet rows =>
          match get_instruments_from_sheet now rows with
          | .error (.valueError info) =>
              .error (.parserError (sheetRepr rows) (.valueError info))
          | .error e => .error e
          | .ok instrs =>
              match parse_xls_files now rest with
              | .error e => .error e
              | .ok more => .ok (instrs ++ more)

/-! ## `collect_reports` (the report downloader) -/

/-- Transient storage as `collect_reports` observes it: whether the reports
directory exists and the names of the files below it. -/
structure FsState where
  dirExists : Bool
  files : List String
  deriving DecidableEq, Repr

/-- `Parser.collect_reports`: after the two string type checks,
`os.makedirs(REPORTS_DIR, exist_ok=True)` unconditionally ensures the
storage root; the download runs only when no file of that name exists yet.
Returns the new filesystem state, the number of network calls performed
(`urlretrieve` invocations), and the Python outcome; a failed download
leaves no (complete) file behind. -/
def collect_reports (dl : Option TransportExc) (st : FsState)
    (report_url report_name : PyVal) : FsState × Nat × Except PyErr Unit :=
  match check_incoming_str report_url with
  | .error e => (st, 0, .error e)
  | .ok _ =>
    match check_incoming_str report_name with
    | .error e => (st, 0, .error e)
    | .ok name =>
      let st1 : FsState := { st with dirExists := true }
      if st1.files.contains name then (st1, 0, .ok ())
      else
        match dl with
        | none => ({ st1 with files := name :: st1.files }, 1, .ok ())
        | some e => (st1, 1, .error (.transport e))

/-! ## Ingestion (`import_to_db.py`) and the orchestrator (`main.py`) -/

/-- External world of one pipeline run: the `urlopen` outcome of every
listing page, the `urlretrieve` outcome of every document URL, the
database outcomes, the contents of the transient files once parsed, and
the wall-clock timestamp. -/
structure World where
  pageFetch : Nat → UrlopenOutcome
  download : String → Option TransportExc
  dbCreateErr : Option String
  dbCommitErr : Option String
  docAt : String → Doc
  now : Nat

/-- Mutable state of one pipeline run: the transient storage, what the sink
has committed, and whether the cleanup stage removed the reports
directory. -/
structure RunState where
  fs : FsState
  committed : Option (List Instrument)
  reportsDirRemoved : Bool

/-- The `TypeError` message of the arity violation at the
`parse_xls_files(REPORTS_DIR)` call site (Python quotes the parameter
name). -/
def MISSING_ARG_MSG : String :=
  "parse_xls_files() missing 1 required positional argument: file_pattern"

/-- Python call binding for `parse_xls_files(path, file_pattern)` — both
parameters are positional and have no default, so a call supplying fewer
arguments raises `TypeError` before the function body runs.  The glob over
the matched files is modelled by `docs` (the directory files matched by the
pattern, in glob order). -/
def call_parse_xls_files (now : Nat) (docs : List (String × Doc)) (args : List PyVal) :
    Except PyErr (List Instrument) :=
  match args with
  | [_path, .str _pattern] => parse_xls_files now docs
  | [_path] => .error (.typeError MISSING_ARG_MSG)
  | _ => .error (.typeError "parse_xls_files() arity mismatch")

/-- `import_to_db.create_model`: create the schema if absent (idempotent);
fails only on a database error. -/
def create_model (w : World) : Except PyErr Unit :=
  match w.dbCreateErr with
  | some m => .error (.dbError m)
  | none => .ok ()

/-- `import_to_db.import_data_to_db`: parse the transient storage directory
— via the call `parse_xls_files(REPORTS_DIR)`, which supplies one positional
argument — then add all resulting records and commit them in one
transaction. -/
def import_data_to_db (w : World) (s : RunState) : RunState × Except PyErr Unit :=
  match call_parse_xls_files w.now (s.fs.files.map (fun f => (f, w.docAt f)))
      [.path "REPORTS_DIR"] with
  | .error e => (s, .error e)
  | .ok instrs =>
      match w.dbCommitErr with
      | some m => (s, .error (.dbError m))
      | none => ({ s with committed := some instrs }, .ok ())

/-- `import_to_db.create_model_and_import_data_to_db`: ensure the schema,
then ingest. -/
def create_model_and_import_data_to_db (w : World) (s : RunState) :
    RunState × Except PyErr Unit :=
  match create_model w with
  | .error e => (s, .error e)
  | .ok () => import_data_to_db w s

/-- `remove_reports_directory`: `rmtree` of the transient storage (the
Cleanup stage). -/
def remove_reports_directory (s : RunState) : RunState :=
  { s with fs := ⟨false, []⟩, reportsDirRemoved := true }

/-- Last path segment of a URL (`url.split("/")[-1]`). -/
def lastSegment (url : String) : String :=
  (pySplit '/' url).getLastD ""

/-- Download stage of `entrypoint`: one `collect_reports` call per discovered
URL with the derived local name `report_<last path segment>`; the join
point propagates the first failure (the gather is modelled in task order). -/
def download_all (w : World) (st : FsState) : List String → FsState × Except PyErr Unit
  | [] => (st, .ok ())
  | url :: rest =>
      match collect_reports (w.download url) st (.str url)
          (.str ("report_" ++ lastSegment url)) with
      | (st1, _, .ok ()) => download_all w st1 rest
      | (st1, _, .error e) => (st1, .error e)

/-- Discovery stage of `entrypoint`: fetch and extract every listing page of
`REPORTS_RANGE`; results are collected in page order and any single
failure is fatal to the stage (the gather is modelled in task order). -/
def discovery (w : World) : List Nat → Except PyErr (List (List String))
  | [] => .ok []
  | n :: rest =>
      match fetch_and_parse_data SITE (w.pageFetch n) with
      | .error e => .error e
      | .ok urls =>
          match discovery w rest with
          | .error e => .error e
          | .ok pages => .ok (urls :: pages)

/-- `main.entrypoint`: Discovery, then Download (full-barrier join), then
Ingest, then Cleanup; no stage swallows exceptions, so the first failure
unwinds and every later stage — Cleanup included — is not run. -/
def entrypoint (w : World) (s0 : RunState) : RunState × Except PyErr Unit :=
  match discovery w REPORTS_RANGE with
  | .error e => (s0, .error e)
  | .ok pages =>
      match download_all w s0.fs pages.flatten with
      | (fs1, .error e) => ({ s0 with fs := fs1 }, .error e)
      | (fs1, .ok ()) =>
          match create_model_and_import_data_to_db w { s0 with fs := fs1 } with
          | (s2, .error e) => (s2, .error e)
          | (s2, .ok ()) => (remove_reports_directory s2, .ok ())

/-! ## Observers and bridging lemmas -/

/-- Cell of a row at a nonnegative column (total observer). -/
def cellD (row : List String) (k : Nat) : String := row.getD k ""

/-- Last cell of a row (total observer). -/
def lastCellD (row : List String) : String := row.getLastD ""

/-- The sentinel-skip condition as a total predicate over a row: the last
column or the second column holds one of the `ROWS_TO_SKIP` sentinels. -/
def skipB (row : List String) : Bool :=
  ROWS_TO_SKIP.contains (lastCellD row) || ROWS_TO_SKIP.contains (cellD row 1)

/-- Whether one of the three numeric cells of a row fails `float()`. -/
def badNum (row : List String) : Bool :=
  !((pyFloat (cellD row 4)).isOk && (pyFloat (cellD row 5)).isOk
    && (pyFloat (lastCellD row)).isOk)

/-- Index of the first non-skipped row whose numeric cells fail to convert:
the offending row of a parse failure. -/
def firstFailingRow (rows : List (List String)) : Option Nat :=
  rows.findIdx? (fun r => !skipB r && badNum r)

/-- Whether a result is a raised, wrapped `ParserError`. -/
def isParserErrorRes {α : Type} : Except PyErr α → Bool
  | .error (.parserError _ _) => true
  | _ => false

/-- Whether a result is a raised `InvalidDataException`. -/
def isInvalidDataRes {α : Type} : Except PyErr α → Bool
  | .error (.invalidData _ _) => true
  | _ => false

/-- All elements of the list are Python strings. -/
def allStr : List PyVal → Bool
  | [] => true
  | .str _ :: rest => allStr rest
  | _ :: _ => false

/-- A well-formed document sheet whose only defective data row is at row
index 4 (its volume cell is not numeric). -/
def sheetBadAtIdx4 : List (List String) :=
  [["", "", "", "", "", "", ""],
   ["", "", "", "", "", "", ""],
   ["", "", "", "", "", "", ""],
   ["", "Trade date: 13.07.2023", "", "", "", "", ""],
   ["", "X1", "P", "B", "bad", "2", "3"],
   ["", "X2", "P", "B", "1", "2", "3"]]

/-- The same document except that the defective data row is at row index 5
instead (row 4 is valid). -/
def sheetBadAtIdx5 : List (List String) :=
  [["", "", "", "", "", "", ""],
   ["", "", "", "", "", "", ""],
   ["", "", "", "", "", "", ""],
   ["", "Trade date: 13.07.2023", "", "", "", "", ""],
   ["", "X1", "P", "B", "1", "2", "3"],
   ["", "X2", "P", "B", "bad", "2", "3"]]

/-- The well-formed one-data-row document of the end-to-end scenario: header
rows are sentinel-skipped, the header date cell is at row index 3, second
column, and the single data row follows the fixed column layout. -/
def scenarioSheet : List (List String) :=
  [["", "", "", "", "", "", ""],
   ["", "", "", "", "", "", ""],
   ["", "", "", "", "", "", ""],
   ["", "Trade date: 13.07.2023", "", "", "", "", ""],
   ["", "A1234XYZ", "Product A", "Basis A", "1.5", "2.5", "3"]]

/-- The Record that the end-to-end scenario document parses to (timestamp 0,
identity still transient). -/
def scenarioRecord : Instrument :=
  { exchange_product_id := "A1234XYZ"
    exchange_product_name := "Product A"
    oil_id := "A123"
    delivery_basis_id := "4XY"
    delivery_basis_name := "Basis A"
    delivery_type_id := "Z"
    volume := ⟨3, 2⟩
    total := ⟨5, 2⟩
    count := ⟨3, 1⟩
    date := ⟨13, 7, 2023⟩
    created_on := 0
    updated_on := none
    id := 0 }

/-- A concrete run environment for the orchestrator claims: every page
fetch fails with a `URLError`, downloads and database calls succeed, the
transient directory starts empty. -/
def sampleWorld : World :=
  { pageFetch := fun _ => .raises (.urlError "unreachable")
    download := fun _ => none
    dbCreateErr := none
    dbCommitErr := none
    docAt := fun _ => .sheet []
    now := 0 }

/-- The initial run state: no directory, no files, nothing committed,
nothing removed. -/
def sampleState : RunState :=
  { fs := ⟨false, []⟩, committed := none, reportsDirRemoved := false }

theorem getD_pred_eq_getLastD {α : Type} (l : List α) (d : α) :
    l.getD (l.length - 1) d = l.getLastD d := by
  induction l with
  | nil => rfl
  | cons a t ih =>
    cases t with
    | nil => rfl
    | cons b t2 =>
      have h : (a :: b :: t2).length - 1 = (b :: t2).length := by simp
      rw [h]
      have h2 : (a :: b :: t2).getD (b :: t2).length d = (b :: t2).getD ((b :: t2).length - 1) d := by
        simp [List.getD]
      rw [h2, ih]
      simp [List.getLastD]

theorem pyIdx_nonneg {α : Type} (l : List α) (i : Int) (d : α) (h0 : 0 ≤ i)
    (h : i.toNat < l.length) : pyIdx l i = .ok (l.getD i.toNat d) := by
  unfold pyIdx
  have hneg : ¬ i < 0 := by omega
  simp only [hneg, if_false, if_neg (by omega : ¬ (i : Int) < 0)]
  rw [List.get?_eq_get h]
  simp [List.getD_eq_getElem?_getD, List.get?_eq_getElem?, List.getElem?_eq_getElem h]

theorem pyIdx_neg_one {α : Type} (l : List α) (d : α) (h : 1 ≤ l.length) :
    pyIdx l (-1) = .ok (l.getLastD d) := by
  unfold pyIdx
  have h1 : ((-1 : Int) + l.length).toNat = l.length - 1 := by omega
  have h2 : ¬ ((-1 : Int) + l.length < 0) := by omega
  simp only [if_pos (by omega : (-1 : Int) < 0), h2, if_false]
  rw [h1, List.get?_eq_get (by omega : l.length - 1 < l.length)]
  rw [← getD_pred_eq_getLastD l d]
  simp [List.getD_eq_getElem?_getD, List.get?_eq_getElem?,
    List.getElem?_eq_getElem (by omega : l.length - 1 < l.length)]

theorem skip_row_wf (row : List String) (h : 2 ≤ row.length) :
    skip_row row = .ok (skipB row) := by
  unfold skip_row skipB
  rw [show CONTRACT_VALUE_IDX = (-1 : Int) from rfl]
  rw [pyIdx_neg_one row "" (by omega)]
  rw [pyIdx_nonneg row 1 "" (by decide) (by norm_num; omega)]
  simp only [lastCellD, cellD, List.getLastD_eq_getLast?, List.getD_eq_getElem?_getD]
  by_cases hl : row.getLast?.getD "" ∈ ROWS_TO_SKIP <;> simp [hl]

theorem pyIdx_nat {α : Type} (l : List α) (k : Nat) (d : α) (h : k < l.length) :
    pyIdx l (k : Int) = .ok (l.getD k d) := by
  have := pyIdx_nonneg l (k : Int) d (by omega) (by rw [Int.toNat_natCast]; exact h)
  rwa [Int.toNat_natCast] at this

theorem pyFloat_err (s : String) (e : PyErr) (h : pyFloat s = .error e) :
    e = .valueError (.floatConv s) := by
  unfold pyFloat at h
  split at h
  · exact absurd h (by simp)
  · simpa using h.symm

theorem mk_instrument_reads (row : List String) (h6 : 6 ≤ row.length) :
    pyIdx row EXCHANGE_PRODUCT_ID_COL = .ok (cellD row 1)
    ∧ pyIdx row EXCHANGE_PRODUCT_NAME_COL = .ok (cellD row 2)
    ∧ pyIdx row DELIVERY_BASIS_NAME_COL = .ok (cellD row 3)
    ∧ pyIdx row VOLUME_COL = .ok (cellD row 4)
    ∧ pyIdx row TOTAL_COL = .ok (cellD row 5)
    ∧ pyIdx row COUNT_COL = .ok (lastCellD row) := by
  refine ⟨?_, ?_, ?_, ?_, ?_, ?_⟩
  · exact pyIdx_nat row 1 "" (by omega)
  · exact pyIdx_nat row 2 "" (by omega)
  · exact pyIdx_nat row 3 "" (by omega)
  · exact pyIdx_nat row 4 "" (by omega)
  · exact pyIdx_nat row 5 "" (by omega)
  · exact pyIdx_neg_one row "" (by omega)

theorem mk_instrument_ok_eq (now : Nat) (d : PyDate) (row : List String)
    (h6 : 6 ≤ row.length) (v t c : PyRat)
    (hv : pyFloat (cellD row 4) = .ok v)
    (ht : pyFloat (cellD row 5) = .ok t)
    (hc : pyFloat (lastCellD row) = .ok c) :
    mk_instrument now d row = .ok
      { exchange_product_id := cellD row 1
        exchange_product_name := cellD row 2
        oil_id := pySliceStr OIL_ID_SLICE.1 OIL_ID_SLICE.2 (cellD row 1)
        delivery_basis_id :=
          pySliceStr DELIVERY_BASIS_ID_SLICE.1 DELIVERY_BASIS_ID_SLICE.2 (cellD row 1)
        delivery_basis_name := cellD row 3
        delivery_type_id :=
          pySliceStr DELIVERY_TYPE_ID_SLICE.1 DELIVERY_TYPE_ID_SLICE.2 (cellD row 1)
        volume := v
        total := t
        count := c
        date := d
        created_on := now
        updated_on := none
        id := 0 } := by
  obtain ⟨e1, e2, e3, e4, e5, e6⟩ := mk_instrument_reads row h6
  simp [mk_instrument, e1, e2, e3, e4, e5, e6, hv, ht, hc]

theorem mk_instrument_err (now : Nat) (d : PyDate) (row : List String)
    (h6 : 6 ≤ row.length) (e : PyErr) (h : mk_instrument now d row = .error e) :
    ∃ info, e = PyErr.valueError info := by
  obtain ⟨e1, e2, e3, e4, e5, e6⟩ := mk_instrument_reads row h6
  rw [mk_instrument, e1, e2, e3, e4, e5, e6] at h
  simp only at h
  cases hv : pyFloat (cellD row 4) with
  | error ev =>
    rw [hv] at h
    simp only [Except.error.injEq] at h
    exact ⟨.floatConv (cellD row 4), by rw [← h, pyFloat_err _ _ hv]⟩
  | ok v =>
    rw [hv] at h
    cases ht : pyFloat (cellD row 5) with
    | error et =>
      rw [ht] at h
      simp only [Except.error.injEq] at h
      exact ⟨.floatConv (cellD row 5), by rw [← h, pyFloat_err _ _ ht]⟩
    | ok t =>
      rw [ht] at h
      cases hc : pyFloat (lastCellD row) with
      | error ec =>
        rw [hc] at h
        simp only [Except.error.injEq] at h
        exact ⟨.floatConv (lastCellD row), by rw [← h, pyFloat_err _ _ hc]⟩
      | ok c =>
        rw [hc] at h
        simp at h

theorem mk_instrument_ok_floats (now : Nat) (d : PyDate) (row : List String)
    (h6 : 6 ≤ row.length) (i : Instrument) (h : mk_instrument now d row = .ok i) :
    badNum row = false := by
  obtain ⟨e1, e2, e3, e4, e5, e6⟩ := mk_instrument_reads row h6
  rw [mk_instrument, e1, e2, e3, e4, e5, e6] at h
  simp only at h
  unfold badNum
  cases hv : pyFloat (cellD row 4) with
  | error ev => rw [hv] at h; simp at h
  | ok v =>
    rw [hv] at h
    cases ht : pyFloat (cellD row 5) with
    | error et => rw [ht] at h; simp at h
    | ok t =>
      rw [ht] at h
      cases hc : pyFloat (lastCellD row) with
      | error ec => rw [hc] at h; simp at h
      | ok c => simp [hv, ht, hc, Except.isOk, Except.toBool]

theorem mk_instrument_fields (now : Nat) (d : PyDate) (row : List String) (i : Instrument)
    (h : mk_instrument now d row = .ok i) :
    i.oil_id = pySliceStr OIL_ID_SLICE.1 OIL_ID_SLICE.2 i.exchange_product_id
    ∧ i.delivery_basis_id =
        pySliceStr DELIVERY_BASIS_ID_SLICE.1 DELIVERY_BASIS_ID_SLICE.2 i.exchange_product_id
    ∧ i.delivery_type_id =
        pySliceStr DELIVERY_TYPE_ID_SLICE.1 DELIVERY_TYPE_ID_SLICE.2 i.exchange_product_id
    ∧ i.created_on = now ∧ i.date = d := by
  unfold mk_instrument at h
  repeat' split at h
  all_goals (try simp_all)
  subst h
  exact ⟨rfl, rfl, rfl, rfl, rfl⟩

theorem parse_rows_count (now : Nat) (d : PyDate) :
    ∀ rows instrs, (∀ r ∈ rows, 2 ≤ r.length) →
      parse_rows now d rows = .ok instrs →
      instrs.length + rows.countP (fun r => skipB r) = rows.length := by
  intro rows
  induction rows with
  | nil =>
    intro instrs _ h
    simp only [parse_rows, Except.ok.injEq] at h
    subst h
    simp
  | cons row rest ih =>
    intro instrs hwf h
    have h2 : 2 ≤ row.length := hwf row (by simp)
    have hwfr : ∀ r ∈ rest, 2 ≤ r.length := fun r hr => hwf r (by simp [hr])
    rw [parse_rows, skip_row_wf row h2] at h
    cases hsk : skipB row with
    | true =>
      rw [hsk] at h
      simp only at h
      have := ih instrs hwfr h
      simp [List.countP_cons, hsk]
      omega
    | false =>
      rw [hsk] at h
      simp only at h
      cases hmk : mk_instrument now d row with
      | error e => rw [hmk] at h; exact absurd h (by simp)
      | ok i =>
        rw [hmk] at h
        cases hpr : parse_rows now d rest with
        | error e => rw [hpr] at h; exact absurd h (by simp)
        | ok tl =>
          rw [hpr] at h
          simp only [Except.ok.injEq] at h
          subst h
          have := ih tl hwfr hpr
          simp [List.countP_cons, hsk]
          omega

theorem parse_rows_mem (now : Nat) (d : PyDate) :
    ∀ rows instrs, parse_rows now d rows = .ok instrs →
      ∀ i ∈ instrs, ∃ row ∈ rows, skip_row row = .ok false ∧ mk_instrument now d row = .ok i := by
  intro rows
  induction rows with
  | nil =>
    intro instrs h
    simp only [parse_rows, Except.ok.injEq] at h
    subst h
    simp
  | cons row rest ih =>
    intro instrs h i hi
    rw [parse_rows] at h
    cases hsr : skip_row row with
    | error e => rw [hsr] at h; exact absurd h (by simp)
    | ok b =>
      rw [hsr] at h
      cases b with
      | true =>
        simp only at h
        obtain ⟨r, hr, hsk, hmk⟩ := ih instrs h i hi
        exact ⟨r, by simp [hr], hsk, hmk⟩
      | false =>
        simp only at h
        cases hmk : mk_instrument now d row with
        | error e => rw [hmk] at h; exact absurd h (by simp)
        | ok j =>
          rw [hmk] at h
          cases hpr : parse_rows now d rest with
          | error e => rw [hpr] at h; exact absurd h (by simp)
          | ok tl =>
            rw [hpr] at h
            simp only [Except.ok.injEq] at h
            subst h
            rcases List.mem_cons.mp hi with hij | hitl
            · exact ⟨row, by simp, hsr, by rw [hmk, hij]⟩
            · obtain ⟨r, hr, hsk2, hmk2⟩ := ih tl hpr i hitl
              exact ⟨r, by simp [hr], hsk2, hmk2⟩

theorem parse_rows_bad (now : Nat) (d : PyDate) :
    ∀ rows, (∀ r ∈ rows, 6 ≤ r.length) →
      (∃ r ∈ rows, skipB r = false ∧ badNum r = true) →
      ∃ info, parse_rows now d rows = .error (.valueError info) := by
  intro rows
  induction rows with
  | nil => intro _ hbad; simp at hbad
  | cons row rest ih =>
    intro hwf hbad
    have h6 : 6 ≤ row.length := hwf row (by simp)
    have hwfr : ∀ r ∈ rest, 6 ≤ r.length := fun r hr => hwf r (by simp [hr])
    rw [parse_rows, skip_row_wf row (by omega)]
    cases hsk : skipB row with
    | true =>
      simp only
      apply ih hwfr
      rcases hbad with ⟨r, hr, hrt⟩
      rcases List.mem_cons.mp hr with hre | hrr
      · rw [hre] at hrt; rw [hsk] at hrt; simp at hrt
      · exact ⟨r, hrr, hrt⟩
    | false =>
      simp only
      cases hmk : mk_instrument now d row with
      | error e =>
        obtain ⟨info, hinfo⟩ := mk_instrument_err now d row h6 e hmk
        exact ⟨info, by rw [hinfo]⟩
      | ok i =>
        have hgood : badNum row = false := mk_instrument_ok_floats now d row h6 i hmk
        have hbadr : ∃ r ∈ rest, skipB r = false ∧ badNum r = true := by
          rcases hbad with ⟨r, hr, hrf, hrt⟩
          rcases List.mem_cons.mp hr with hre | hrr
          · rw [hre] at hrt; rw [hgood] at hrt; exact absurd hrt (by simp)
          · exact ⟨r, hrr, hrf, hrt⟩
        obtain ⟨info, hinfo⟩ := ih hwfr hbadr
        rw [hinfo]
        exact ⟨info, rfl⟩

theorem pySlice_none4 {α : Type} (l : List α) :
    pySliceList OIL_ID_SLICE.1 OIL_ID_SLICE.2 l = l.take 4 := by
  simp only [OIL_ID_SLICE, pySliceList, pyBound]
  rw [if_neg (by omega)]
  simp only [List.drop_zero]
  rw [show Int.toNat 4 = 4 from rfl]
  rcases le_or_lt l.length 4 with h | h
  · rw [min_eq_right h, List.take_length, List.take_of_length_le h]
  · rw [min_eq_left (by omega)]

theorem pySlice_47 {α : Type} (l : List α) :
    pySliceList DELIVERY_BASIS_ID_SLICE.1 DELIVERY_BASIS_ID_SLICE.2 l = (l.drop 4).take 3 := by
  simp only [DELIVERY_BASIS_ID_SLICE, pySliceList, pyBound]
  rw [if_neg (by omega), if_neg (by omega)]
  rw [show Int.toNat 4 = 4 from rfl, show Int.toNat 7 = 7 from rfl]
  rcases le_or_lt l.length 4 with h | h
  · rw [min_eq_right (show l.length ≤ 4 by omega),
      min_eq_right (show l.length ≤ 7 by omega)]
    rw [List.take_length, List.drop_eq_nil_of_le (le_refl _),
      List.drop_eq_nil_of_le h, List.take_nil]
  · rcases le_or_lt l.length 7 with h7 | h7
    · rw [min_eq_left (show (4 : ℕ) ≤ l.length by omega),
        min_eq_right (show l.length ≤ 7 by omega)]
      rw [List.take_length, List.take_of_length_le (by rw [List.length_drop]; omega)]
    · rw [min_eq_left (show (4 : ℕ) ≤ l.length by omega),
        min_eq_left (show (7 : ℕ) ≤ l.length by omega)]
      rw [List.drop_take]

theorem drop_pred_eq_getLast? {α : Type} (l : List α) :
    l.drop (l.length - 1) = l.getLast?.toList := by
  induction l with
  | nil => rfl
  | cons a t ih =>
    cases t with
    | nil => rfl
    | cons b t2 =>
      have h : (a :: b :: t2).length - 1 = t2.length + 1 := by simp
      have h2 : (b :: t2).length - 1 = t2.length := by simp
      rw [h, List.drop_succ_cons, ← h2, ih, List.getLast?_cons_cons]

theorem pySlice_neg1 {α : Type} (l : List α) :
    pySliceList DELIVERY_TYPE_ID_SLICE.1 DELIVERY_TYPE_ID_SLICE.2 l = l.getLast?.toList := by
  simp only [DELIVERY_TYPE_ID_SLICE, pySliceList, pyBound]
  rw [if_pos (by omega)]
  rw [List.take_length]
  rw [show ((-1 : Int) + l.length).toNat = l.length - 1 by omega]
  exact drop_pred_eq_getLast? l

theorem isOk_iff {α : Type} (r : Except PyErr α) : r.isOk = true ↔ ∃ v, r = .ok v := by
  cases r <;> simp [Except.isOk, Except.toBool]

theorem get_instruments_ok (now : Nat) (sheet : List (List String)) (instrs : List Instrument)
    (h : get_instruments_from_sheet now sheet = .ok instrs) :
    ∃ d, date_of sheet = .ok d ∧ parse_rows now d sheet = .ok instrs := by
  unfold get_instruments_from_sheet at h
  cases hd : date_of sheet with
  | error e => rw [hd] at h; exact absurd h (by simp)
  | ok d => rw [hd] at h; exact ⟨d, rfl, h⟩

/-- C2: over every sheet whose parse succeeds, a row is skipped (producing
no Record) exactly when its last column or its second column holds one of
the sentinel strings of `ROWS_TO_SKIP` (the two checks are independent),
every non-skipped row yields exactly one Record, and the number of skipped
rows plus the number of returned records equals the total number of rows;
moreover every returned record comes from a row whose sentinel check is
false. -/
theorem c2_row_skip_partition (now : Nat) (sheet : List (List String)) (instrs : List Instrument)
    (hwf : ∀ r ∈ sheet, 2 ≤ r.length)
    (h : get_instruments_from_sheet now sheet = .ok instrs) :
    instrs.length
      + sheet.countP (fun r =>
          ROWS_TO_SKIP.contains (lastCellD r) || ROWS_TO_SKIP.contains (cellD r 1))
      = sheet.length
    ∧ ∀ i ∈ instrs, ∃ row ∈ sheet,
        (ROWS_TO_SKIP.contains (lastCellD row) || ROWS_TO_SKIP.contains (cellD row 1)) = false := by
  obtain ⟨d, hd, hpr⟩ := get_instruments_ok now sheet instrs h
  constructor
  · exact parse_rows_count now d sheet instrs hwf hpr
  · intro i hi
    obtain ⟨row, hrow, hsk, _⟩ := parse_rows_mem now d sheet instrs hpr i hi
    refine ⟨row, hrow, ?_⟩
    have := skip_row_wf row (hwf row hrow)
    rw [this] at hsk
    simpa [skipB] using hsk

theorem c2_witness :
    (∀ r ∈ ([["", ""], ["", ""], ["", ""], ["", "d: 13.07.2023", ""]] : List (List String)),
      2 ≤ r.length)
    ∧ get_instruments_from_sheet 0
        [["", ""], ["", ""], ["", ""], ["", "d: 13.07.2023", ""]] = .ok []
    ∧ (([] : List Instrument).length
        + ([["", ""], ["", ""], ["", ""], ["", "d: 13.07.2023", ""]] : List (List String)).countP
            (fun r => ROWS_TO_SKIP.contains (lastCellD r) || ROWS_TO_SKIP.contains (cellD r 1))
        = 4) :=
  ⟨by decide, by decide,
    (c2_row_skip_partition 0 [["", ""], ["", ""], ["", ""], ["", "d: 13.07.2023", ""]] []
      (by decide) (by decide)).1⟩

/-- C3: for every Record returned by a successful sheet parse whose product
code has at least 7 characters, the three derived identifiers are the
fixed-offset substrings of the product code: `oil_id` its first four
characters, `delivery_basis_id` its characters at offsets 4 to 6, and
`delivery_type_id` its last character (with the expected lengths 4, 3
and 1). -/
theorem c3_ids_from_product_code (now : Nat) (sheet : List (List String))
    (instrs : List Instrument)
    (h : get_instruments_from_sheet now sheet = .ok instrs) :
    ∀ i ∈ instrs, 7 ≤ i.exchange_product_id.toList.length →
      i.oil_id.toList = i.exchange_product_id.toList.take 4
      ∧ i.delivery_basis_id.toList = (i.exchange_product_id.toList.drop 4).take 3
      ∧ i.delivery_type_id.toList = i.exchange_product_id.toList.getLast?.toList
      ∧ i.oil_id.toList.length = 4
      ∧ i.delivery_basis_id.toList.length = 3
      ∧ i.delivery_type_id.toList.length = 1 := by
  intro i hi hlen
  obtain ⟨d, hd, hpr⟩ := get_instruments_ok now sheet instrs h
  obtain ⟨row, _, _, hmk⟩ := parse_rows_mem now d sheet instrs hpr i hi
  obtain ⟨ho, hb, ht, _, _⟩ := mk_instrument_fields now d row i hmk
  have e1 : i.oil_id.toList = i.exchange_product_id.toList.take 4 := by
    rw [ho]; exact pySlice_none4 i.exchange_product_id.toList
  have e2 : i.delivery_basis_id.toList = (i.exchange_product_id.toList.drop 4).take 3 := by
    rw [hb]; exact pySlice_47 i.exchange_product_id.toList
  have e3 : i.delivery_type_id.toList = i.exchange_product_id.toList.getLast?.toList := by
    rw [ht]; exact pySlice_neg1 i.exchange_product_id.toList
  refine ⟨e1, e2, e3, ?_, ?_, ?_⟩
  · rw [e1, List.length_take]; omega
  · rw [e2, List.length_take, List.length_drop]; omega
  · rw [e3]
    have hne : i.exchange_product_id.toList ≠ [] := by
      intro hemp; rw [hemp] at hlen; simp at hlen
    rw [List.getLast?_eq_getLast_of_ne_nil hne]
    rfl

theorem c3_witness :
    get_instruments_from_sheet 0 scenarioSheet = .ok [scenarioRecord]
    ∧ scenarioRecord ∈ [scenarioRecord]
    ∧ 7 ≤ scenarioRecord.exchange_product_id.toList.length
    ∧ (scenarioRecord.oil_id.toList = scenarioRecord.exchange_product_id.toList.take 4
      ∧ scenarioRecord.delivery_basis_id.toList
          = (scenarioRecord.exchange_product_id.toList.drop 4).take 3
      ∧ scenarioRecord.delivery_type_id.toList
          = scenarioRecord.exchange_product_id.toList.getLast?.toList
      ∧ scenarioRecord.oil_id.toList.length = 4
      ∧ scenarioRecord.delivery_basis_id.toList.length = 3
      ∧ scenarioRecord.delivery_type_id.toList.length = 1) := by
  have hparse : get_instruments_from_sheet 0 scenarioSheet = .ok [scenarioRecord] := by decide
  have hmem : scenarioRecord ∈ [scenarioRecord] := by decide
  have hlen : 7 ≤ scenarioRecord.exchange_product_id.toList.length := by decide
  exact ⟨hparse, hmem, hlen,
    c3_ids_from_product_code 0 scenarioSheet [scenarioRecord] hparse scenarioRecord hmem hlen⟩

/-- C9 (implicit): deriving the three identifier fields from a product code
never raises, whatever the code length: whenever the three numeric cells of
a non-skipped row convert, the row yields a Record whose `oil_id` is the
first at-most-four characters of the code, whose `delivery_basis_id` is
characters 4 to 6 (the empty string when the code has at most 4
characters), and whose `delivery_type_id` is the last character (the empty
string when the code is empty): the slicing silently truncates instead of
raising. -/
theorem c9_short_code_slicing (now : Nat) (d : PyDate) (row : List String)
    (h6 : 6 ≤ row.length)
    (hv : (pyFloat (cellD row 4)).isOk = true)
    (ht : (pyFloat (cellD row 5)).isOk = true)
    (hc : (pyFloat (lastCellD row)).isOk = true) :
    ∃ i, mk_instrument now d row = .ok i
      ∧ i.exchange_product_id = cellD row 1
      ∧ i.oil_id.toList = i.exchange_product_id.toList.take 4
      ∧ i.delivery_basis_id.toList = (i.exchange_product_id.toList.drop 4).take 3
      ∧ (i.exchange_product_id.toList.length ≤ 4 → i.delivery_basis_id = "")
      ∧ i.delivery_type_id.toList = i.exchange_product_id.toList.getLast?.toList
      ∧ (i.exchange_product_id = "" → i.delivery_type_id = "") := by
  obtain ⟨v, hv2⟩ := (isOk_iff _).mp hv
  obtain ⟨t, ht2⟩ := (isOk_iff _).mp ht
  obtain ⟨c, hc2⟩ := (isOk_iff _).mp hc
  refine ⟨_, mk_instrument_ok_eq now d row h6 v t c hv2 ht2 hc2, rfl, ?_, ?_, ?_, ?_, ?_⟩
  · exact pySlice_none4 _
  · exact pySlice_47 _
  · intro hle
    have hle2 : (cellD row 1).toList.length ≤ 4 := hle
    show String.mk (pySliceList DELIVERY_BASIS_ID_SLICE.1 DELIVERY_BASIS_ID_SLICE.2
      (cellD row 1).toList) = ""
    rw [pySlice_47, List.drop_eq_nil_of_le (by omega)]
    rfl
  · exact pySlice_neg1 _
  · intro hemp
    have hemp2 : cellD row 1 = "" := hemp
    show String.mk (pySliceList DELIVERY_TYPE_ID_SLICE.1 DELIVERY_TYPE_ID_SLICE.2
      (cellD row 1).toList) = ""
    rw [pySlice_neg1, hemp2]
    rfl

theorem c9_witness :
    6 ≤ (["", "AB", "N", "B", "1", "2", "3"] : List String).length
    ∧ (pyFloat (cellD ["", "AB", "N", "B", "1", "2", "3"] 4)).isOk = true
    ∧ (pyFloat (cellD ["", "AB", "N", "B", "1", "2", "3"] 5)).isOk = true
    ∧ (pyFloat (lastCellD ["", "AB", "N", "B", "1", "2", "3"])).isOk = true
    ∧ (∃ i, mk_instrument 0 ⟨1, 1, 2023⟩ ["", "AB", "N", "B", "1", "2", "3"] = .ok i
      ∧ i.exchange_product_id = cellD ["", "AB", "N", "B", "1", "2", "3"] 1
      ∧ i.oil_id.toList = i.exchange_product_id.toList.take 4
      ∧ i.delivery_basis_id.toList = (i.exchange_product_id.toList.drop 4).take 3
      ∧ (i.exchange_product_id.toList.length ≤ 4 → i.delivery_basis_id = "")
      ∧ i.delivery_type_id.toList = i.exchange_product_id.toList.getLast?.toList
      ∧ (i.exchange_product_id = "" → i.delivery_type_id = "")) :=
  ⟨by decide, by decide, by decide, by decide,
    c9_short_code_slicing 0 ⟨1, 1, 2023⟩ ["", "AB", "N", "B", "1", "2", "3"]
      (by decide) (by decide) (by decide) (by decide)⟩

/-- C4: end-to-end scenario.  URL extraction over page text whose one
matching line carries
`href="/upload/reports/oil_xls/report_1.xls?x=1"` returns exactly the
site-prefixed URL with the query string stripped; page text without a match
yields the empty list and no error; and the well-formed one-data-row
document with header date cell ending in `: 13.07.2023` parses to exactly
one Record with trade date 2023-07-13, `oil_id` `A123`,
`delivery_basis_id` `4XY`, `delivery_type_id` `Z`, volume 1.5, total 2.5
and contract count 3. -/
theorem c4_end_to_end :
    get_urls_from_retrieved_data SITE
        (.list [.str "<div>",
          .str "<a href=\"/upload/reports/oil_xls/report_1.xls?x=1\">report</a>",
          .str "</div>"]) true
      = .ok ["https://spimex.com/upload/reports/oil_xls/report_1.xls"]
    ∧ get_urls_from_retrieved_data SITE (.list [.str "<div>no matching line</div>"]) true
      = .ok []
    ∧ get_instruments_from_sheet 0 scenarioSheet = .ok [scenarioRecord] :=
  ⟨by decide, by decide, by decide⟩

/-- C7 counterexample: the claim says the raised `ParseError` names the
offending row, but the error the code raises is
`ParserError(sheet, exception)` whose item is the default object repr of
the sheet and whose cause names only the offending cell value: two
documents whose offending rows differ (row index 4 versus row index 5)
raise the very same error, so the error cannot name the offending row. -/
theorem c7_counterexample :
    parse_xls_files 0 [("report_a.xls", .sheet sheetBadAtIdx4)]
      = .error (.parserError "<xlrd.sheet.Sheet object>" (.valueError (.floatConv "bad")))
    ∧ parse_xls_files 0 [("report_b.xls", .sheet sheetBadAtIdx5)]
      = .error (.parserError "<xlrd.sheet.Sheet object>" (.valueError (.floatConv "bad")))
    ∧ firstFailingRow sheetBadAtIdx4 = some 4
    ∧ firstFailingRow sheetBadAtIdx5 = some 5
    ∧ sheetBadAtIdx4 ≠ sheetBadAtIdx5 := by
  refine ⟨by decide, by decide, by decide, by decide, by decide⟩

/-- C7 as amended: when a well-formed document (header date readable, rows
rectangular) has a non-skipped row with a non-numeric numeric cell, parsing
the document raises a `ParserError` wrapping the underlying `ValueError` —
the error names the sheet (by its content-free object repr) and the
offending cell value, not the offending row index — and the failure is
fatal for the whole document: no Records from it are returned. -/
theorem c7_amended (now : Nat) (name : String) (rows : List (List String))
    (hwf : ∀ r ∈ rows, 6 ≤ r.length)
    (hdate : ∃ d, date_of rows = .ok d)
    (hbad : ∃ r ∈ rows, skipB r = false ∧ badNum r = true) :
    ∃ info, parse_xls_files now [(name, .sheet rows)]
      = .error (.parserError (sheetRepr rows) (.valueError info)) := by
  obtain ⟨d, hd⟩ := hdate
  obtain ⟨info, hpr⟩ := parse_rows_bad now d rows hwf hbad
  refine ⟨info, ?_⟩
  have hg : get_instruments_from_sheet now rows = .error (.valueError info) := by
    unfold get_instruments_from_sheet
    rw [hd]
    exact hpr
  unfold parse_xls_files
  simp [hg]

theorem c7_witness :
    (∀ r ∈ sheetBadAtIdx4, 6 ≤ r.length)
    ∧ (∃ d, date_of sheetBadAtIdx4 = .ok d)
    ∧ (∃ r ∈ sheetBadAtIdx4, skipB r = false ∧ badNum r = true)
    ∧ (∃ info, parse_xls_files 0 [("report_a.xls", .sheet sheetBadAtIdx4)]
        = .error (.parserError (sheetRepr sheetBadAtIdx4) (.valueError info))) := by
  have h1 : ∀ r ∈ sheetBadAtIdx4, 6 ≤ r.length := by decide
  have h2 : ∃ d, date_of sheetBadAtIdx4 = .ok d := ⟨⟨13, 7, 2023⟩, by decide⟩
  have h3 : ∃ r ∈ sheetBadAtIdx4, skipB r = false ∧ badNum r = true :=
    ⟨["", "X1", "P", "B", "bad", "2", "3"], by decide, by decide, by decide⟩
  exact ⟨h1, h2, h3, c7_amended 0 "report_a.xls" sheetBadAtIdx4 h1 h2 h3⟩

/-- C6 counterexample: a transport failure that `urllib` raises as a
`URLError` is not of the `ConnectionError` family, so the
`except ConnectionError` clause of `fetch_data` does not wrap it: it
surfaces raw, not as a `ParserError` — refuting the claim that every
transport-level failure surfaces as the wrapped error type. -/
theorem c6_counterexample :
    fetch_data "https://spimex.com/markets/oil_products/trades/results/?page=page-45"
        (.raises (.urlError "name resolution failed"))
      = .error (.transport (.urlError "name resolution failed"))
    ∧ isParserErrorRes
        (fetch_data "https://spimex.com/markets/oil_products/trades/results/?page=page-45"
          (.raises (.urlError "name resolution failed"))) = false := by
  exact ⟨by decide, by decide⟩

/-- C6 as amended: the page fetcher raises `ParserError` (wrapping the
`ConnectionError` it raised itself) whenever `urlopen` returns a response
whose status is not OK; a transport failure of the `ConnectionError` family
is wrapped the same way, while any other transport failure (such as
`URLError`) propagates unwrapped; in every case the failure propagates to
the caller — `fetch_data` contains no retry. -/
theorem c6_amended (url : String) (code : Nat) (body : String) (e : TransportExc) :
    (code ≠ 200 → fetch_data url (.response code body)
      = .error (.parserError url .connectionError))
    ∧ fetch_data url (.response 200 body) = .ok (splitlines body)
    ∧ (e.isConnectionClass = true →
        fetch_data url (.raises e) = .error (.parserError url (.transport e)))
    ∧ (e.isConnectionClass = false →
        fetch_data url (.raises e) = .error (.transport e)) := by
  refine ⟨fun h => ?_, ?_, fun h => ?_, fun h => ?_⟩
  · simp [fetch_data, h]
  · simp [fetch_data]
  · simp [fetch_data, h]
  · simp [fetch_data, h]

theorem c6_witness :
    ((404 : Nat) ≠ 200
      ∧ fetch_data "https://spimex.com/x" (.response 404 "")
          = .error (.parserError "https://spimex.com/x" .connectionError))
    ∧ ((TransportExc.connectionReset "reset by peer").isConnectionClass = true
      ∧ fetch_data "https://spimex.com/x" (.raises (.connectionReset "reset by peer"))
          = .error (.parserError "https://spimex.com/x"
              (.transport (.connectionReset "reset by peer"))))
    ∧ ((TransportExc.urlError "refused").isConnectionClass = false
      ∧ fetch_data "https://spimex.com/x" (.raises (.urlError "refused"))
          = .error (.transport (.urlError "refused"))) :=
  ⟨⟨by decide, (c6_amended "https://spimex.com/x" 404 "" (.urlError "refused")).1 (by decide)⟩,
   ⟨rfl, (c6_amended "https://spimex.com/x" 0 "" (.connectionReset "reset by peer")).2.2.1 rfl⟩,
   ⟨rfl, (c6_amended "https://spimex.com/x" 0 "" (.urlError "refused")).2.2.2 rfl⟩⟩

/-- C5: the report downloader is idempotent.  If a file of the given local
name already exists under the storage root, the call performs zero network
calls and only ensures the root directory exists; otherwise it performs the
one download and writes the file, the storage root having been created
first; consequently any successful `collect` is followed by a second call
with the same name that downloads nothing and leaves the state unchanged. -/
theorem c5_collect_idempotent (st : FsState) (u nm : String) (o o2 : Option TransportExc) :
    (st.files.contains nm = true →
      collect_reports o st (.str u) (.str nm) = ({ st with dirExists := true }, 0, .ok ()))
    ∧ (st.files.contains nm = false → o = none →
      collect_reports o st (.str u) (.str nm)
        = (⟨true, nm :: st.files⟩, 1, .ok ()))
    ∧ (∀ st1 k, collect_reports o st (.str u) (.str nm) = (st1, k, .ok ()) →
        ∀ u2 : String, collect_reports o2 st1 (.str u2) (.str nm) = (st1, 0, .ok ())) := by
  refine ⟨fun hin => ?_, fun hout hnone => ?_, fun st1 k h u2 => ?_⟩
  · have hin2 : nm ∈ st.files := by simpa using hin
    simp [collect_reports, check_incoming_str, hin2]
  · have hout2 : nm ∉ st.files := by simpa using hout
    simp [collect_reports, check_incoming_str, hout2, hnone]
  · by_cases hin : nm ∈ st.files
    · have hmain : collect_reports o st (.str u) (.str nm)
          = ({ st with dirExists := true }, 0, .ok ()) := by
        simp [collect_reports, check_incoming_str, hin]
      rw [hmain] at h
      simp only [Prod.mk.injEq] at h
      obtain ⟨h1, -, -⟩ := h
      have hin3 : nm ∈ st1.files := by rw [← h1]; exact hin
      have hd : st1.dirExists = true := by rw [← h1]
      have : ({ st1 with dirExists := true } : FsState) = st1 := by
        cases st1
        simp_all
      simp [collect_reports, check_incoming_str, hin3, this]
    · cases ho : o with
      | some e =>
        have : collect_reports o st (.str u) (.str nm)
            = ({ st with dirExists := true }, 1, .error (.transport e)) := by
          simp [collect_reports, check_incoming_str, hin, ho]
        rw [this] at h
        simp at h
      | none =>
        have hmain : collect_reports o st (.str u) (.str nm)
            = (⟨true, nm :: st.files⟩, 1, .ok ()) := by
          simp [collect_reports, check_incoming_str, hin, ho]
        rw [hmain] at h
        simp only [Prod.mk.injEq] at h
        obtain ⟨h1, -, -⟩ := h
        have hin3 : nm ∈ st1.files := by rw [← h1]; simp
        have : ({ st1 with dirExists := true } : FsState) = st1 := by
          cases st1
          simp_all
        simp [collect_reports, check_incoming_str, hin3, this]

theorem c5_witness :
    ((⟨false, ["report_a.xls"]⟩ : FsState).files.contains "report_a.xls" = true
      ∧ collect_reports none ⟨false, ["report_a.xls"]⟩ (.str "http://u/a.xls")
          (.str "report_a.xls") = (⟨true, ["report_a.xls"]⟩, 0, .ok ()))
    ∧ ((⟨false, []⟩ : FsState).files.contains "report_b.xls" = false
      ∧ collect_reports none ⟨false, []⟩ (.str "http://u/b.xls") (.str "report_b.xls")
          = (⟨true, ["report_b.xls"]⟩, 1, .ok ()))
    ∧ collect_reports none ⟨true, ["report_b.xls"]⟩ (.str "http://u/b.xls")
        (.str "report_b.xls") = (⟨true, ["report_b.xls"]⟩, 0, .ok ()) :=
  ⟨⟨by decide,
    (c5_collect_idempotent ⟨false, ["report_a.xls"]⟩ "http://u/a.xls" "report_a.xls"
      none none).1 (by decide)⟩,
   ⟨by decide,
    (c5_collect_idempotent ⟨false, []⟩ "http://u/b.xls" "report_b.xls" none none).2.1
      (by decide) rfl⟩,
   (c5_collect_idempotent ⟨false, []⟩ "http://u/b.xls" "report_b.xls" none none).2.2
     ⟨true, ["report_b.xls"]⟩ 1 (by decide) "http://u/b.xls"⟩

theorem filter_loop_err (expression : String) :
    ∀ xs e, filter_loop expression xs = .error e → ∃ m, e = .typeError m := by
  intro xs
  induction xs with
  | nil => intro e h; simp [filter_loop] at h
  | cons v rest ih =>
    intro e h
    cases v with
    | str line =>
      rw [filter_loop] at h
      cases hr : filter_loop expression rest with
      | error e2 =>
        rw [hr] at h
        simp only [Except.error.injEq] at h
        exact h ▸ ih e2 hr
      | ok more => rw [hr] at h; simp at h
    | list xs2 =>
      simp only [filter_loop, Except.error.injEq] at h
      exact ⟨_, h.symm⟩
    | tuple xs2 =>
      simp only [filter_loop, Except.error.injEq] at h
      exact ⟨_, h.symm⟩
    | gen =>
      simp only [filter_loop, Except.error.injEq] at h
      exact ⟨_, h.symm⟩
    | int n =>
      simp only [filter_loop, Except.error.injEq] at h
      exact ⟨_, h.symm⟩
    | path p =>
      simp only [filter_loop, Except.error.injEq] at h
      exact ⟨_, h.symm⟩
    | pynone =>
      simp only [filter_loop, Except.error.injEq] at h
      exact ⟨_, h.symm⟩

theorem url_loop_err (site : String) ( site_prefix : Bool) :
    ∀ xs e, url_loop site site_prefix xs = .error e → ∃ m, e = .typeError m := by
  intro xs
  induction xs with
  | nil => intro e h; simp [url_loop] at h
  | cons v rest ih =>
    intro e h
    cases v with
    | str line =>
      rw [url_loop] at h
      cases hr : url_loop site site_prefix rest with
      | error e2 =>
        rw [hr] at h
        simp only [Except.error.injEq] at h
        exact h ▸ ih e2 hr
      | ok more =>
        rw [hr] at h
        cases hs : href_search line.toList with
        | some cap => rw [hs] at h; simp at h
        | none => rw [hs] at h; simp at h
    | list xs2 =>
      simp only [url_loop, Except.error.injEq] at h
      exact ⟨_, h.symm⟩
    | tuple xs2 =>
      simp only [url_loop, Except.error.injEq] at h
      exact ⟨_, h.symm⟩
    | gen =>
      simp only [url_loop, Except.error.injEq] at h
      exact ⟨_, h.symm⟩
    | int n =>
      simp only [url_loop, Except.error.injEq] at h
      exact ⟨_, h.symm⟩
    | path p =>
      simp only [url_loop, Except.error.injEq] at h
      exact ⟨_, h.symm⟩
    | pynone =>
      simp only [url_loop, Except.error.injEq] at h
      exact ⟨_, h.symm⟩

theorem filter_loop_allStr (expression : String) :
    ∀ xs, allStr xs = true → ∃ l, filter_loop expression xs = .ok l := by
  intro xs
  induction xs with
  | nil => intro _; exact ⟨[], rfl⟩
  | cons v rest ih =>
    intro hall
    cases v with
    | str line =>
      obtain ⟨l, hl⟩ := ih (by simpa [allStr] using hall)
      refine ⟨if strContains expression line then .str line :: l else l, ?_⟩
      rw [filter_loop, hl]
    | list xs2 => simp [allStr] at hall
    | tuple xs2 => simp [allStr] at hall
    | gen => simp [allStr] at hall
    | int n => simp [allStr] at hall
    | path p => simp [allStr] at hall
    | pynone => simp [allStr] at hall

theorem url_loop_allStr (site : String) ( site_prefix : Bool) :
    ∀ xs, allStr xs = true → ∃ l, url_loop site site_prefix xs = .ok l := by
  intro xs
  induction xs with
  | nil => intro _; exact ⟨[], rfl⟩
  | cons v rest ih =>
    intro hall
    cases v with
    | str line =>
      obtain ⟨l, hl⟩ := ih (by simpa [allStr] using hall)
      cases hs : href_search line.toList with
      | some cap =>
        refine ⟨construct_url site cap site_prefix :: l, ?_⟩
        rw [url_loop, hl, hs]
      | none =>
        refine ⟨l, ?_⟩
        rw [url_loop, hl, hs]
    | list xs2 => simp [allStr] at hall
    | tuple xs2 => simp [allStr] at hall
    | gen => simp [allStr] at hall
    | int n => simp [allStr] at hall
    | path p => simp [allStr] at hall
    | pynone => simp [allStr] at hall

/-- C10 (implicit): the two link-extraction operations accept only a
built-in `list` as their data argument.  Every non-list value — tuples,
generators, strings, anything else — makes them raise the invalid-input
exception up front (naming the expected and the actual type) and produce no
URLs; for a list the shape check never fires (the invalid-input exception
is never the outcome), and a list of strings is processed without any
exception. -/
theorem c10_list_type_check (site expression : String) (v : PyVal) :
    (v.isList = false →
      parse_by_expression v expression = .error (.invalidData "list" v.typeName)
      ∧ get_urls_from_retrieved_data site v true = .error (.invalidData "list" v.typeName))
    ∧ (∀ xs, v = .list xs →
      isInvalidDataRes (parse_by_expression v expression) = false
      ∧ isInvalidDataRes (get_urls_from_retrieved_data site v true) = false)
    ∧ (∀ xs, v = .list xs → allStr xs = true →
      (parse_by_expression v expression).isOk = true
      ∧ (get_urls_from_retrieved_data site v true).isOk = true) := by
  refine ⟨fun hnl => ?_, fun xs hv => ?_, fun xs hv hall => ?_⟩
  · cases v with
    | list xs => simp [PyVal.isList] at hnl
    | str s => exact ⟨rfl, rfl⟩
    | tuple xs => exact ⟨rfl, rfl⟩
    | gen => exact ⟨rfl, rfl⟩
    | int n => exact ⟨rfl, rfl⟩
    | path p => exact ⟨rfl, rfl⟩
    | pynone => exact ⟨rfl, rfl⟩
  · subst hv
    constructor
    · show isInvalidDataRes (filter_loop expression xs) = false
      cases hr : filter_loop expression xs with
      | error e =>
        obtain ⟨m, hm⟩ := filter_loop_err expression xs e hr
        rw [hm]
        rfl
      | ok l => rfl
    · show isInvalidDataRes (url_loop site true xs) = false
      cases hr : url_loop site true xs with
      | error e =>
        obtain ⟨m, hm⟩ := url_loop_err site true xs e hr
        rw [hm]
        rfl
      | ok l => rfl
  · subst hv
    obtain ⟨l1, h1⟩ := filter_loop_allStr expression xs hall
    obtain ⟨l2, h2⟩ := url_loop_allStr site true xs hall
    constructor
    · show (filter_loop expression xs).isOk = true
      rw [h1]
      rfl
    · show (url_loop site true xs).isOk = true
      rw [h2]
      rfl

theorem c10_witness :
    ((PyVal.tuple [.str "x"]).isList = false
      ∧ parse_by_expression (.tuple [.str "x"]) "a" = .error (.invalidData "list" "tuple")
      ∧ get_urls_from_retrieved_data SITE (.tuple [.str "x"]) true
          = .error (.invalidData "list" "tuple"))
    ∧ isInvalidDataRes (parse_by_expression (.list [.int 3]) "a") = false
    ∧ (allStr [.str "x"] = true ∧ (parse_by_expression (.list [.str "x"]) "a").isOk = true) := by
  have h1 := (c10_list_type_check SITE "a" (.tuple [.str "x"])).1 rfl
  have h2 := ((c10_list_type_check SITE "a" (.list [.int 3])).2.1 [.int 3] rfl).1
  have h3 := ((c10_list_type_check SITE "a" (.list [.str "x"])).2.2 [.str "x"] rfl rfl).1
  exact ⟨⟨rfl, h1.1, h1.2⟩, h2, ⟨rfl, h3⟩⟩

/-- C1 (code bug): the Ingest stage's call `parse_xls_files(REPORTS_DIR)`
supplies one positional argument while `parse_xls_files(path, file_pattern)`
declares two without defaults, so every run of the ingest step raises
`TypeError` before parsing anything: the sink state is untouched (nothing
is ever committed), contradicting the claim that the stage parses the
directory and commits the parsed records in one transaction. -/
theorem c1_ingest_arity_bug (w : World) (s : RunState) :
    (import_data_to_db w s).1.committed = s.committed
    ∧ (import_data_to_db w s).2 = .error (.typeError MISSING_ARG_MSG)
    ∧ (w.dbCreateErr = none →
        (create_model_and_import_data_to_db w s).1.committed = s.committed
        ∧ (create_model_and_import_data_to_db w s).2 = .error (.typeError MISSING_ARG_MSG)) := by
  have hcall : call_parse_xls_files w.now (s.fs.files.map (fun f => (f, w.docAt f)))
      [.path "REPORTS_DIR"] = .error (.typeError MISSING_ARG_MSG) := rfl
  have himp : import_data_to_db w s = (s, .error (.typeError MISSING_ARG_MSG)) := by
    unfold import_data_to_db
    rw [hcall]
  refine ⟨by rw [himp], by rw [himp], fun hnone => ?_⟩
  have : create_model_and_import_data_to_db w s = (s, .error (.typeError MISSING_ARG_MSG)) := by
    unfold create_model_and_import_data_to_db create_model
    rw [hnone]
    exact himp
  rw [this]
  exact ⟨rfl, rfl⟩

theorem c1_witness :
    sampleWorld.dbCreateErr = none
    ∧ (create_model_and_import_data_to_db sampleWorld sampleState).1.committed
        = sampleState.committed
    ∧ (create_model_and_import_data_to_db sampleWorld sampleState).2
        = .error (.typeError MISSING_ARG_MSG) :=
  ⟨rfl, (c1_ingest_arity_bug sampleWorld sampleState).2.2 rfl⟩

theorem collect_reports_files_mono (o : Option TransportExc) (st : FsState)
    (u n : PyVal) : ∀ f ∈ st.files, f ∈ (collect_reports o st u n).1.files := by
  intro f hf
  unfold collect_reports
  cases u <;> cases n <;> try exact hf
  case str.str su sn =>
    simp only [check_incoming_str]
    by_cases hin : sn ∈ st.files
    · simp [hin, hf]
    · cases o with
      | none => simp [hin, hf]
      | some e => simp [hin, hf]

theorem download_all_files_mono (w : World) :
    ∀ urls st, ∀ f ∈ st.files, f ∈ (download_all w st urls).1.files := by
  intro urls
  induction urls with
  | nil => intro st f hf; exact hf
  | cons url rest ih =>
    intro st f hf
    unfold download_all
    have hstep := collect_reports_files_mono (w.download url) st (.str url)
      (.str ("report_" ++ lastSegment url)) f hf
    cases hc : collect_reports (w.download url) st (.str url)
        (.str ("report_" ++ lastSegment url)) with
    | mk st1 rest2 =>
      rw [hc] at hstep
      obtain ⟨k, r⟩ := rest2
      cases r with
      | ok v => exact ih st1 f hstep
      | error e => exact hstep

theorem ingest_stage_always_fails (w : World) (s : RunState) :
    (create_model_and_import_data_to_db w s).1 = s
    ∧ (create_model_and_import_data_to_db w s).2.isOk = false := by
  unfold create_model_and_import_data_to_db create_model import_data_to_db
  cases w.dbCreateErr with
  | some m => exact ⟨rfl, rfl⟩
  | none =>
    have hcall : call_parse_xls_files w.now (s.fs.files.map (fun f => (f, w.docAt f)))
        [.path "REPORTS_DIR"] = .error (.typeError MISSING_ARG_MSG) := rfl
    rw [hcall]
    exact ⟨rfl, rfl⟩

/-- C8: Cleanup runs only after a successful Ingest.  In every run in which
any stage raises, the orchestrator never removes the transient reports
directory and the files downloaded so far remain on disk; and a final state
in which the directory was removed although nothing was committed is
unreachable (removal implies the run succeeded and records were
committed). -/
theorem c8_cleanup_only_after_ingest (w : World) (s0 : RunState)
    (h0 : s0.reportsDirRemoved = false) :
    ((entrypoint w s0).2.isOk = false →
      (entrypoint w s0).1.reportsDirRemoved = false
      ∧ ∀ f ∈ s0.fs.files, f ∈ (entrypoint w s0).1.fs.files)
    ∧ ((entrypoint w s0).1.reportsDirRemoved = true →
      (entrypoint w s0).2.isOk = true
      ∧ (entrypoint w s0).1.committed.isSome = true) := by
  unfold entrypoint
  split
  next e hd =>
    exact ⟨fun _ => ⟨h0, fun f hf => hf⟩, fun hrem => absurd hrem (by simp [h0])⟩
  next pages hd =>
    split
    next fs1 e hdl =>
      have hmono := download_all_files_mono w pages.flatten s0.fs
      rw [hdl] at hmono
      exact ⟨fun _ => ⟨h0, hmono⟩, fun hrem => absurd hrem (by simp [h0])⟩
    next fs1 hdl =>
      split
      next s2 e2 hing =>
        have hok := ingest_stage_always_fails w { s0 with fs := fs1 }
        rw [hing] at hok
        obtain ⟨hsame, -⟩ := hok
        have hsame2 : s2 = { s0 with fs := fs1 } := hsame
        have hmono := download_all_files_mono w pages.flatten s0.fs
        rw [hdl] at hmono
        refine ⟨fun _ => ⟨?_, ?_⟩, fun hrem => ?_⟩
        · show s2.reportsDirRemoved = false
          rw [hsame2]
          exact h0
        · show ∀ f ∈ s0.fs.files, f ∈ s2.fs.files
          rw [hsame2]
          exact hmono
        · have hrem2 : s2.reportsDirRemoved = true := hrem
          rw [hsame2] at hrem2
          simp [h0] at hrem2
      next s2 hing =>
        have hok := ingest_stage_always_fails w { s0 with fs := fs1 }
        rw [hing] at hok
        obtain ⟨-, hfail⟩ := hok
        exact absurd hfail (by simp [Except.isOk, Except.toBool])

theorem c8_witness :
    sampleState.reportsDirRemoved = false
    ∧ (((entrypoint sampleWorld sampleState).2.isOk = false →
        (entrypoint sampleWorld sampleState).1.reportsDirRemoved = false
        ∧ ∀ f ∈ sampleState.fs.files, f ∈ (entrypoint sampleWorld sampleState).1.fs.files)
      ∧ ((entrypoint sampleWorld sampleState).1.reportsDirRemoved = true →
        (entrypoint sampleWorld sampleState).2.isOk = true
        ∧ (entrypoint sampleWorld sampleState).1.committed.isSome = true)) :=
  ⟨rfl, c8_cleanup_only_after_ingest sampleWorld sampleState rfl⟩

end Em
